import Mathlib

/-!
Shallow embedding of the Binance futures trading bot
(src/bot/validators.py, src/bot/client.py, src/cli.py).

Strings are modelled over their ASCII fragment: Python's str.upper,
str.lower and str.strip act on Unicode, but every character class and
token the program compares against is ASCII, so the embedding maps
`upper`/`lower`/`strip` to their ASCII behaviour and leaves other
characters fixed, exactly as CPython does on ASCII input.

CPython `float` values are modelled by `PyFloat`: a finite rational, the
two infinities, or NaN, with IEEE-754 comparison semantics (every
comparison against NaN is false).  Finite values carry the exact rational
denoted by the parsed decimal literal; the binary rounding CPython
performs when it stores the nearest double is not modelled, so the model
is exact on every literal short enough to be represented, which covers
all inputs the theorems below evaluate.
-/

/-- A CPython float: finite rational, infinities, or NaN. -/
inductive PyFloat where
  | finite (q : ℚ)
  | inf
  | negInf
  | nan
deriving DecidableEq, Repr

/-- IEEE-754 `<=` on floats: false whenever either side is NaN. -/
def PyFloat.le : PyFloat → PyFloat → Bool
  | .nan, _ => false
  | _, .nan => false
  | .negInf, _ => true
  | _, .inf => true
  | .inf, _ => false
  | _, .negInf => false
  | .finite a, .finite b => a ≤ b

/-- IEEE-754 `<` on floats: false whenever either side is NaN. -/
def PyFloat.lt : PyFloat → PyFloat → Bool
  | .nan, _ => false
  | _, .nan => false
  | .negInf, .negInf => false
  | .negInf, _ => true
  | _, .negInf => false
  | .inf, _ => false
  | _, .inf => true
  | .finite a, .finite b => a < b

/-- ASCII whitespace, the fragment of Python's str.strip character set the
embedding models (codes 9-13 and 32). -/
def pyIsSpace (c : Char) : Bool :=
  c.toNat = 32 || (9 ≤ c.toNat && c.toNat ≤ 13)

/-- Drop leading characters satisfying pyIsSpace. -/
def dropSpaceL : List Char → List Char
  | [] => []
  | c :: t => if pyIsSpace c then dropSpaceL t else c :: t

/-- Python str.strip on the character list: remove leading and trailing
whitespace. -/
def pyStripL (cs : List Char) : List Char :=
  dropSpaceL ((dropSpaceL cs.reverse).reverse)

/-- Python str.strip (ASCII fragment). -/
def pyStrip (s : String) : String := ⟨pyStripL s.data⟩

/-- Python str.upper on one character (ASCII fragment): a-z map to A-Z. -/
def pyToUpper (c : Char) : Char :=
  if 97 ≤ c.toNat && c.toNat ≤ 122 then Char.ofNat (c.toNat - 32) else c

/-- Python str.lower on one character (ASCII fragment): A-Z map to a-z. -/
def pyToLower (c : Char) : Char :=
  if 65 ≤ c.toNat && c.toNat ≤ 90 then Char.ofNat (c.toNat + 32) else c

/-- Python str.upper (ASCII fragment). -/
def pyUpper (s : String) : String := ⟨s.data.map pyToUpper⟩

/-- Python str.lower (ASCII fragment). -/
def pyLower (s : String) : String := ⟨s.data.map pyToLower⟩

/-- Is c an ASCII decimal digit. -/
def isDigitCh (c : Char) : Bool := 48 ≤ c.toNat && c.toNat ≤ 57

/-- Split off the longest prefix of decimal digits. -/
def takeDigits : List Char → List Char × List Char
  | [] => ([], [])
  | c :: t =>
    if isDigitCh c then
      let p := takeDigits t
      (c :: p.1, p.2)
    else ([], c :: t)

/-- Value of a digit string, most significant first. -/
def digitsToNat (ds : List Char) : Nat :=
  ds.foldl (fun a c => 10 * a + (c.toNat - 48)) 0

/-- Parse the exponent that follows e or E: optional sign then at least one
digit, consuming the whole remainder. -/
def parseExp (cs : List Char) : Option Int :=
  let sr : Int × List Char :=
    match cs with
    | '+' :: t => (1, t)
    | '-' :: t => (-1, t)
    | t => (1, t)
  let dr := takeDigits sr.2
  if dr.1 = [] ∨ dr.2 ≠ [] then none
  else some (sr.1 * (digitsToNat dr.1 : Int))

/-- Parse digits with an optional fractional part (at least one digit in
total, as CPython requires); returns the exact rational value and the
unconsumed remainder. -/
def parseMantissa (cs : List Char) : Option (ℚ × List Char) :=
  let ir := takeDigits cs
  match ir.2 with
  | '.' :: r2 =>
    let fr := takeDigits r2
    if ir.1 = [] ∧ fr.1 = [] then none
    else some ((digitsToNat (ir.1 ++ fr.1) : ℚ) / (10 : ℚ) ^ fr.1.length, fr.2)
  | _ => if ir.1 = [] then none else some ((digitsToNat ir.1 : ℚ), ir.2)

/-- Multiply by ten to the (possibly negative) exponent. -/
def applyExp (q : ℚ) (e : Int) : ℚ :=
  if 0 ≤ e then q * (10 : ℚ) ^ e.toNat else q / (10 : ℚ) ^ (-e).toNat

/-- Models the CPython builtin float applied to a string: strip whitespace,
optional sign, then inf / infinity / nan (case-insensitive) or a decimal
literal with optional exponent; None when the string is not accepted
(ValueError).  Digit-group underscores and non-ASCII digits, which CPython
also accepts, are outside the modelled fragment. -/
def pyFloatOfString (s : String) : Option PyFloat :=
  let cs := pyStripL s.data
  let sb : Bool × List Char :=
    match cs with
    | '+' :: t => (false, t)
    | '-' :: t => (true, t)
    | t => (false, t)
  let low := sb.2.map pyToLower
  if low = ['i', 'n', 'f'] ∨ low = ['i', 'n', 'f', 'i', 'n', 'i', 't', 'y'] then
    some (if sb.1 then .negInf else .inf)
  else if low = ['n', 'a', 'n'] then
    some .nan
  else
    match parseMantissa sb.2 with
    | none => none
    | some (m, rest) =>
      let signed : ℚ := if sb.1 then -m else m
      match rest with
      | [] => some (.finite signed)
      | 'e' :: t => (parseExp t).map fun e => .finite (applyExp signed e)
      | 'E' :: t => (parseExp t).map fun e => .finite (applyExp signed e)
      | _ => none

/-- Smallest k with n dividing 10 ^ k, found by stripping factors 2 and 5;
none when no such k exists (fuel n suffices since each step divides n). -/
def decExp (fuel n : Nat) : Option Nat :=
  match fuel with
  | 0 => none
  | fuel + 1 =>
    if n ≤ 1 then some 0
    else if n % 2 = 0 then (decExp fuel (n / 2)).map Nat.succ
    else if n % 5 = 0 then (decExp fuel (n / 5)).map Nat.succ
    else none

/-- Digits of n, most significant first, nonempty. -/
def natDigits (n : Nat) : List Char :=
  (Nat.toDigits 10 n)

/-- Drop leading zero characters (used on a reversed fraction part to
strip the trailing zeros of the shortest decimal expansion). -/
def dropZerosL : List Char → List Char
  | [] => []
  | c :: t => if c = '0' then dropZerosL t else c :: t

/-- Models CPython str on a float.  Exact for nan, the infinities,
integer-valued floats (str of 5.0 is "5.0") and finite decimal expansions in
the positional range; CPython switches to exponent notation outside
[1e-4, 1e16), which this model does not, and no theorem below depends on the
text this function produces. -/
def pyStr : PyFloat → String
  | .nan => "nan"
  | .inf => "inf"
  | .negInf => "-inf"
  | .finite q =>
    let sign := if q < 0 then "-" else ""
    if q.den = 1 then sign ++ ⟨natDigits q.num.natAbs⟩ ++ ".0"
    else
      match decExp q.den q.den with
      | some k =>
        let scaled := q.num.natAbs * 10 ^ k / q.den
        let ds := natDigits scaled
        let padded := List.replicate (k + 1 - ds.length) '0' ++ ds
        let ip := padded.take (padded.length - k)
        let fp := (dropZerosL (padded.drop (padded.length - k)).reverse).reverse
        sign ++ ⟨ip⟩ ++ "." ++ ⟨if fp = [] then ['0'] else fp⟩
      | none => sign ++ ⟨natDigits q.num.natAbs⟩ ++ "/" ++ ⟨natDigits q.den⟩

/-! ## Validator (src/bot/validators.py)

Each validator raises ValueError on bad input, modelled as Except String
carrying the message.  validate_quantity also prints an advisory warning,
modelled by the second component listing the printed lines. -/

/-- The character class [A-Z0-9] of validate_symbol's regular expression. -/
def charClassAZ09 (c : Char) : Bool :=
  (65 ≤ c.toNat && c.toNat ≤ 90) || (48 ≤ c.toNat && c.toNat ≤ 57)

/-- re.match of the anchored pattern [A-Z0-9]{5,12} against the whole
string: between 5 and 12 characters, all in the class.  (Python's final $
would also accept one trailing newline, but validate_symbol strips the
string first, so that case is unreachable.) -/
def reFullMatchClass (s : String) : Bool :=
  s.data.all charClassAZ09 && decide (5 ≤ s.data.length) && decide (s.data.length ≤ 12)

/-- validate_symbol: uppercase and strip, then require the regular
expression [A-Z0-9]{5,12} to match the whole result. -/
def validate_symbol (symbol : String) : Except String String :=
  let s := pyStrip (pyUpper symbol)
  if reFullMatchClass s then .ok s
  else .error ("Invalid symbol: " ++ s ++ ". Must be like 'BTCUSDT', 'ETHUSDT'")

/-- validate_side: uppercase and strip, then require BUY or SELL. -/
def validate_side (side : String) : Except String String :=
  let s := pyStrip (pyUpper side)
  if s = "BUY" ∨ s = "SELL" then .ok s
  else .error ("Invalid side: " ++ s ++ ". Must be 'BUY' or 'SELL'")

/-- validate_order_type: uppercase and strip, then require MARKET or
LIMIT. -/
def validate_order_type (order_type : String) : Except String String :=
  let s := pyStrip (pyUpper order_type)
  if s = "MARKET" ∨ s = "LIMIT" then .ok s
  else .error ("Invalid order type: " ++ s ++ ". Must be 'MARKET' or 'LIMIT'")

/-- validate_quantity: float(quantity); inside the try block a ValueError
is raised when the value is not positive, and the except ValueError arm
turns both that and a parse failure into the one message naming the raw
string; a value below 0.001 only prints a warning (the returned printed
lines) and is still returned. -/
def validate_quantity (quantity : String) : Except String PyFloat × List String :=
  match pyFloatOfString quantity with
  | none =>
    (.error ("Invalid quantity: " ++ quantity ++ ". Must be a positive number"), [])
  | some qty =>
    if PyFloat.le qty (.finite 0) then
      (.error ("Invalid quantity: " ++ quantity ++ ". Must be a positive number"), [])
    else if PyFloat.lt qty (.finite (1 / 1000)) then
      (.ok qty, ["Warning: Quantity " ++ pyStr qty ++ " might be too small for some symbols"])
    else (.ok qty, [])

/-- validate_price: float(price); not positive or unparsable becomes the
one ValueError message naming the raw string. -/
def validate_price (price : String) : Except String PyFloat :=
  match pyFloatOfString price with
  | none => .error ("Invalid price: " ++ price ++ ". Must be a positive number")
  | some p =>
    if PyFloat.le p (.finite 0) then
      .error ("Invalid price: " ++ price ++ ". Must be a positive number")
    else .ok p

/-! ## ExchangeGateway (src/bot/client.py)

The external binance client is a parameter: futures_create_order maps a
request to its outcome (a successful order record, a BinanceAPIException
with code and message, or any other exception).  Each gateway function
returns its result together with the list of create-order calls it made. -/

/-- The keyword arguments of one futures_create_order call. -/
structure CreateOrderReq where
  symbol : String
  side : String
  type : String
  quantity : PyFloat
  price : Option PyFloat
  timeInForce : Option String
deriving DecidableEq, Repr

/-- The order record the exchange returns (the fields cli.py reads). -/
structure OrderResult where
  orderId : Int
  status : String
  executedQty : String
  avgPrice : String
  type : String
deriving DecidableEq, Repr

/-- Outcome of one call into the external binance client. -/
inductive ApiOutcome where
  | ok (r : OrderResult)
  | apiErr (code : Int) (message : String)
  | otherErr (msg : String)
deriving DecidableEq, Repr

/-- place_market_order: build the MARKET request (no price, no
time-in-force), call futures_create_order once, and wrap a
BinanceAPIException into the message carrying its code and message, any
other exception into the generic message. -/
def place_market_order (futures_create_order : CreateOrderReq → ApiOutcome)
    (symbol side : String) (quantity : PyFloat) :
    Except String OrderResult × List CreateOrderReq :=
  let req : CreateOrderReq :=
    { symbol := symbol, side := pyUpper side, type := "MARKET",
      quantity := quantity, price := none, timeInForce := none }
  match futures_create_order req with
  | .ok order => (.ok order, [req])
  | .apiErr code message =>
    (.error ("Binance API Error: " ++ message ++ " (Error code: " ++ toString code ++ ")"), [req])
  | .otherErr msg =>
    (.error ("Unexpected error placing market order: " ++ msg), [req])

/-- place_limit_order: build the LIMIT request with the price and
timeInForce GTC, call futures_create_order once, same wrapping as
place_market_order. -/
def place_limit_order (futures_create_order : CreateOrderReq → ApiOutcome)
    (symbol side : String) (quantity price : PyFloat) :
    Except String OrderResult × List CreateOrderReq :=
  let req : CreateOrderReq :=
    { symbol := symbol, side := pyUpper side, type := "LIMIT",
      quantity := quantity, price := some price, timeInForce := some "GTC" }
  match futures_create_order req with
  | .ok order => (.ok order, [req])
  | .apiErr code message =>
    (.error ("Binance API Error: " ++ message ++ " (Error code: " ++ toString code ++ ")"), [req])
  | .otherErr msg =>
    (.error ("Unexpected error placing limit order: " ++ msg), [req])

/-- A Python call result: a normal return or a propagated exception. -/
inductive PyResult (α : Type) where
  | ret (a : α)
  | exc (msg : String)
deriving DecidableEq, Repr

/-- get_order_status: call futures_get_order inside try; return the record
on success, and on any exception log the failure and return None.  The
PyResult codomain shows whether an exception propagates to the caller; the
list holds the logged lines. -/
def get_order_status (futures_get_order : String → Int → Except String OrderResult)
    (symbol : String) (order_id : Int) :
    PyResult (Option OrderResult) × List String :=
  match futures_get_order symbol order_id with
  | .ok order_status =>
    (.ret (some order_status), ["Order status: " ++ order_status.status])
  | .error e =>
    (.ret none, ["Failed to check order status: " ++ e])

/-! ## Orchestrator (src/cli.py)

argparse has already produced the four positional strings and the optional
price float (argparse itself rejects a non-numeric price with its own
usage error before main's logic runs, so args.price is a float when
present).  The interactive and network environment of one run is a World:
the two credential variables, what the one blocking input() call yields
(an answer line, Ctrl-C, or end-of-file), the outcome of constructing
BinanceFuturesClient, and the behaviour of futures_create_order. -/

/-- The parsed command line. -/
structure Args where
  symbol : String
  side : String
  order_type : String
  quantity : String
  price : Option PyFloat
deriving DecidableEq, Repr

/-- What the blocking input() call at the confirmation prompt yields:
a line, a KeyboardInterrupt, or an EOFError. -/
inductive ConfirmInput where
  | answer (s : String)
  | interrupt
  | eofError
deriving DecidableEq, Repr

/-- The environment of one run. -/
structure World where
  api_key : Option String
  api_secret : Option String
  confirm : ConfirmInput
  connect : Except String Unit
  futures_create_order : CreateOrderReq → ApiOutcome

/-- Python truthiness of os.getenv's result: None and the empty string are
falsy. -/
def pyTruthyStr : Option String → Bool
  | none => false
  | some s => s ≠ ""

/-- Python truthiness of args.price: None, and the floats 0.0 and -0.0,
are falsy; every other float (including nan and the infinities) is
truthy. -/
def pyTruthyOptFloat : Option PyFloat → Bool
  | none => false
  | some (.finite q) => q ≠ 0
  | some _ => true

/-- validate_price applied to str(args.price): CPython guarantees
float(str(x)) == x for every float x, so the parse inside validate_price
recovers the argument and only the positivity test remains; the message
interpolates str(x). -/
def validate_price_of_float (p : PyFloat) : Except String PyFloat :=
  if PyFloat.le p (.finite 0) then
    .error ("Invalid price: " ++ pyStr p ++ ". Must be a positive number")
  else .ok p

/-- The validated fields main goes on to submit. -/
structure ValidatedOrder where
  symbol : String
  side : String
  order_type : String
  quantity : PyFloat
  price : Option PyFloat
deriving DecidableEq, Repr

/-- The dedicated error main raises when orderType is LIMIT and args.price
is falsy. -/
def missing_price_msg : String := " Price is required for LIMIT orders!"

/-- STEP 1 of main (the inner try block): run the validators in order,
then for LIMIT require a truthy args.price and run validate_price on its
str; for any other type set price to None.  The first ValueError wins.
The advisory line validate_quantity may print is observable on
validate_quantity itself and does not influence this flow. -/
def mainValidate (args : Args) : Except String ValidatedOrder :=
  match validate_symbol args.symbol with
  | .error e => .error e
  | .ok symbol =>
  match validate_side args.side with
  | .error e => .error e
  | .ok side =>
  match validate_order_type args.order_type with
  | .error e => .error e
  | .ok order_type =>
  match (validate_quantity args.quantity).1 with
  | .error e => .error e
  | .ok quantity =>
  if order_type = "LIMIT" then
    if pyTruthyOptFloat args.price then
      match args.price with
      | some p =>
        match validate_price_of_float p with
        | .error e => .error e
        | .ok price =>
          .ok { symbol := symbol, side := side, order_type := order_type,
                quantity := quantity, price := some price }
      | none => .error missing_price_msg
    else .error missing_price_msg
  else
    .ok { symbol := symbol, side := side, order_type := order_type,
          quantity := quantity, price := none }

/-- print_order_summary's return value: the prompt's answer, lowercased,
compared with the token yes (the printed summary itself is console output
no later step reads). -/
def print_order_summary (confirm : String) : Bool :=
  pyLower confirm == "yes"

/-- STEP 2's credential test: both variables must be truthy. -/
def credsOk (w : World) : Bool :=
  pyTruthyStr w.api_key && pyTruthyStr w.api_secret

/-- cliMain embeds cli.py's main: validate, check credentials, confirm, connect, submit, report;
the result is the process exit code (via sys.exit) paired with the list of
create-order calls the run made.  A KeyboardInterrupt at the prompt is
caught by the outer handler and returns 0; an EOFError there falls to the
generic handler and returns 1. -/
def cliMain (args : Args) (w : World) : Int × List CreateOrderReq :=
  match mainValidate args with
  | .error _ => (1, [])
  | .ok v =>
    if credsOk w then
      match w.confirm with
      | .interrupt => (0, [])
      | .eofError => (1, [])
      | .answer s =>
        if print_order_summary s then
          match w.connect with
          | .error _ => (1, [])
          | .ok _ =>
            if v.order_type = "MARKET" then
              match place_market_order w.futures_create_order v.symbol v.side v.quantity with
              | (.ok _, calls) => (0, calls)
              | (.error _, calls) => (1, calls)
            else
              match v.price with
              | some p =>
                match place_limit_order w.futures_create_order v.symbol v.side v.quantity p with
                | (.ok _, calls) => (0, calls)
                | (.error _, calls) => (1, calls)
              | none => (1, [])
        else (0, [])
    else (1, [])

/-! ## Helper lemmas -/

theorem strExt {s t : String} (h : s.data = t.data) : s = t :=
  congrArg String.mk h

theorem pyToUpper_fix {c : Char} (h : charClassAZ09 c = true) : pyToUpper c = c := by
  simp only [charClassAZ09, Bool.or_eq_true, Bool.and_eq_true, decide_eq_true_eq] at h
  unfold pyToUpper
  split
  · next hc =>
    simp only [Bool.and_eq_true, decide_eq_true_eq] at hc
    omega
  · rfl

theorem class_not_space {c : Char} (h : charClassAZ09 c = true) : pyIsSpace c = false := by
  simp only [charClassAZ09, Bool.or_eq_true, Bool.and_eq_true, decide_eq_true_eq] at h
  simp only [pyIsSpace, Bool.or_eq_false_iff, Bool.and_eq_false_iff]
  constructor
  · simp only [decide_eq_false_iff_not]
    omega
  · right
    simp only [decide_eq_false_iff_not]
    omega

theorem dropSpaceL_eq_self {cs : List Char} (h : ∀ c ∈ cs, pyIsSpace c = false) :
    dropSpaceL cs = cs := by
  cases cs with
  | nil => rfl
  | cons c t => simp [dropSpaceL, h c (by simp)]

theorem pyStripL_eq_self {cs : List Char} (h : ∀ c ∈ cs, pyIsSpace c = false) :
    pyStripL cs = cs := by
  have h1 : dropSpaceL cs.reverse = cs.reverse :=
    dropSpaceL_eq_self (fun c hc => h c (List.mem_reverse.mp hc))
  unfold pyStripL
  rw [h1, List.reverse_reverse, dropSpaceL_eq_self h]

theorem map_pyToUpper_id {cs : List Char} (h : cs.all charClassAZ09 = true) :
    cs.map pyToUpper = cs := by
  induction cs with
  | nil => rfl
  | cons c t ih =>
    simp only [List.all_cons, Bool.and_eq_true] at h
    simp [pyToUpper_fix h.1, ih h.2]

theorem pyUpper_fix {s : String} (h : s.data.all charClassAZ09 = true) :
    pyUpper s = s := by
  apply strExt
  simp only [pyUpper]
  exact map_pyToUpper_id h

theorem pyStrip_fix {s : String} (h : s.data.all charClassAZ09 = true) :
    pyStrip s = s := by
  apply strExt
  simp only [pyStrip]
  refine pyStripL_eq_self ?_
  intro c hc
  exact class_not_space (by simpa using List.all_eq_true.mp h c hc)

theorem validate_symbol_ok_iff {s t : String} :
    validate_symbol s = .ok t ↔
      t = pyStrip (pyUpper s) ∧ reFullMatchClass t = true := by
  unfold validate_symbol
  by_cases hm : reFullMatchClass (pyStrip (pyUpper s)) = true
  · simp only [hm, if_true]
    constructor
    · intro h
      cases h
      exact ⟨rfl, hm⟩
    · intro h
      rw [h.1]
  · simp only [hm, if_false, Bool.false_eq_true]
    constructor
    · intro h
      cases h
    · intro h
      rw [← h.1] at hm
      exact absurd h.2 hm

theorem reFullMatchClass_all {t : String} (h : reFullMatchClass t = true) :
    t.data.all charClassAZ09 = true := by
  simp only [reFullMatchClass, Bool.and_eq_true] at h
  exact h.1.1

theorem validate_symbol_idem {s t : String} (h : validate_symbol s = .ok t) :
    validate_symbol t = .ok t := by
  have h1 := validate_symbol_ok_iff.mp h
  have hall := reFullMatchClass_all h1.2
  refine validate_symbol_ok_iff.mpr ⟨?_, h1.2⟩
  rw [pyUpper_fix hall, pyStrip_fix hall]

theorem validate_side_ok_iff {s t : String} :
    validate_side s = .ok t ↔
      t = pyStrip (pyUpper s) ∧ (t = "BUY" ∨ t = "SELL") := by
  unfold validate_side
  by_cases hm : pyStrip (pyUpper s) = "BUY" ∨ pyStrip (pyUpper s) = "SELL"
  · simp only [hm, if_true]
    constructor
    · intro h
      cases h
      exact ⟨rfl, hm⟩
    · intro h
      rw [h.1]
  · simp only [hm, if_false]
    constructor
    · intro h
      cases h
    · intro h
      rw [← h.1] at hm
      exact absurd h.2 hm

theorem validate_order_type_ok_iff {s t : String} :
    validate_order_type s = .ok t ↔
      t = pyStrip (pyUpper s) ∧ (t = "MARKET" ∨ t = "LIMIT") := by
  unfold validate_order_type
  by_cases hm : pyStrip (pyUpper s) = "MARKET" ∨ pyStrip (pyUpper s) = "LIMIT"
  · simp only [hm, if_true]
    constructor
    · intro h
      cases h
      exact ⟨rfl, hm⟩
    · intro h
      rw [h.1]
  · simp only [hm, if_false]
    constructor
    · intro h
      cases h
    · intro h
      rw [← h.1] at hm
      exact absurd h.2 hm

theorem validate_side_idem {s t : String} (h : validate_side s = .ok t) :
    validate_side t = .ok t := by
  have h1 := validate_side_ok_iff.mp h
  rcases h1.2 with h2 | h2 <;> rw [h2] <;> rfl

theorem validate_order_type_idem {s t : String} (h : validate_order_type s = .ok t) :
    validate_order_type t = .ok t := by
  have h1 := validate_order_type_ok_iff.mp h
  rcases h1.2 with h2 | h2 <;> rw [h2] <;> rfl

/-- The spec's acceptance predicate for symbols: length 5 to 12 and every
character an uppercase letter or a digit. -/
def specSymbolOk (t : String) : Bool :=
  decide (5 ≤ t.data.length) && decide (t.data.length ≤ 12) &&
    t.data.all (fun c => (65 ≤ c.toNat && c.toNat ≤ 90) || (48 ≤ c.toNat && c.toNat ≤ 57))

theorem specSymbolOk_eq (t : String) : specSymbolOk t = reFullMatchClass t := by
  have hf : (fun c : Char => (65 ≤ c.toNat && c.toNat ≤ 90) || (48 ≤ c.toNat && c.toNat ≤ 57)) =
      charClassAZ09 := by
    funext c
    rfl
  simp only [specSymbolOk, reFullMatchClass, hf]
  cases t.data.all charClassAZ09 <;>
    cases decide (5 ≤ t.data.length) <;> cases decide (t.data.length ≤ 12) <;> rfl

/-- C4: for every string whose uppercased-and-trimmed form consists only of
characters A-Z and 0-9 and has length 5 to 12, validate_symbol returns that
uppercased-trimmed form; for every other string it fails. -/
theorem symbol_validation (s : String) :
    (specSymbolOk (pyStrip (pyUpper s)) = true →
      validate_symbol s = .ok (pyStrip (pyUpper s))) ∧
    (specSymbolOk (pyStrip (pyUpper s)) = false →
      ∀ t, validate_symbol s ≠ .ok t) := by
  constructor
  · intro h
    rw [specSymbolOk_eq] at h
    exact validate_symbol_ok_iff.mpr ⟨rfl, h⟩
  · intro h t hok
    have h2 := validate_symbol_ok_iff.mp hok
    rw [specSymbolOk_eq, ← h2.1] at h
    rw [h2.2] at h
    cases h

/-- Witness for C4: the lowercase "btcusdt" normalizes and is accepted, and
"BTC-USD" (a character outside the class) is rejected. -/
theorem symbol_validation_witness :
    validate_symbol "btcusdt" = .ok "BTCUSDT" ∧ ∀ t, validate_symbol "BTC-USD" ≠ .ok t := by
  constructor
  · have h := (symbol_validation "btcusdt").1 (by decide)
    exact h
  · exact (symbol_validation "BTC-USD").2 (by decide)

/-- C9: applying validate_symbol, validate_side or validate_order_type to
its own successful result returns the identical value (idempotence on the
range, stated with bind so that a failing first run is passed through). -/
theorem validators_idempotent (s : String) :
    (validate_symbol s).bind validate_symbol = validate_symbol s ∧
    (validate_side s).bind validate_side = validate_side s ∧
    (validate_order_type s).bind validate_order_type = validate_order_type s := by
  refine ⟨?_, ?_, ?_⟩
  · cases h : validate_symbol s with
    | error e => rfl
    | ok t => exact validate_symbol_idem h
  · cases h : validate_side s with
    | error e => rfl
    | ok t => exact validate_side_idem h
  · cases h : validate_order_type s with
    | error e => rfl
    | ok t => exact validate_order_type_idem h

theorem le_finite_eq (a b : ℚ) : PyFloat.le (.finite a) (.finite b) = decide (a ≤ b) := rfl

theorem lt_finite_eq (a b : ℚ) : PyFloat.lt (.finite a) (.finite b) = decide (a < b) := rfl

theorem parse_00005 : pyFloatOfString "0.0005" = some (.finite (1 / 2000)) := by
  have h : pyFloatOfString "0.0005" =
      some (.finite ((digitsToNat ['0', '0', '0', '0', '5'] : ℚ) / (10 : ℚ) ^ 4)) := rfl
  have hd : digitsToNat ['0', '0', '0', '0', '5'] = 5 := by decide
  rw [h, hd]
  norm_num

theorem le_00005_zero : PyFloat.le (.finite (1 / 2000)) (.finite 0) = false := by
  rw [le_finite_eq, decide_eq_false_iff_not]
  norm_num

theorem lt_00005_threshold : PyFloat.lt (.finite (1 / 2000)) (.finite (1 / 1000)) = true := by
  rw [lt_finite_eq, decide_eq_true_eq]
  norm_num

theorem parse_50000 : pyFloatOfString "50000" = some (.finite 50000) := by
  have h : pyFloatOfString "50000" =
      some (.finite ((digitsToNat ['5', '0', '0', '0', '0'] : ℚ))) := rfl
  have hd : digitsToNat ['5', '0', '0', '0', '0'] = 50000 := by decide
  rw [h, hd]
  norm_num

theorem le_50000_zero : PyFloat.le (.finite 50000) (.finite 0) = false := by
  rw [le_finite_eq, decide_eq_false_iff_not]
  norm_num

theorem lt_50000_threshold : PyFloat.lt (.finite 50000) (.finite (1 / 1000)) = false := by
  rw [lt_finite_eq, decide_eq_false_iff_not]
  norm_num

/-- C3: validate_quantity and validate_price parse the string with float()
and fail exactly when it does not parse or the parsed value is ≤ 0 (under
IEEE comparison, so NaN, which compares false, passes); a parsed quantity
strictly below the 0.001 threshold only adds the advisory printed warning
and is still returned; no other case prints. -/
theorem quantity_price_validation (s : String) :
    (pyFloatOfString s = none →
      (validate_quantity s).1 =
        .error ("Invalid quantity: " ++ s ++ ". Must be a positive number") ∧
      validate_price s =
        .error ("Invalid price: " ++ s ++ ". Must be a positive number")) ∧
    (∀ q, pyFloatOfString s = some q → PyFloat.le q (.finite 0) = true →
      (validate_quantity s).1 =
        .error ("Invalid quantity: " ++ s ++ ". Must be a positive number") ∧
      validate_price s =
        .error ("Invalid price: " ++ s ++ ". Must be a positive number")) ∧
    (∀ q, pyFloatOfString s = some q → PyFloat.le q (.finite 0) = false →
      (validate_quantity s).1 = .ok q ∧ validate_price s = .ok q ∧
      ((validate_quantity s).2 ≠ [] ↔ PyFloat.lt q (.finite (1 / 1000)) = true)) := by
  refine ⟨?_, ?_, ?_⟩
  · intro h
    unfold validate_quantity validate_price
    rw [h]
    exact ⟨rfl, rfl⟩
  · intro q hq hle
    unfold validate_quantity validate_price
    rw [hq]
    simp [hle]
  · intro q hq hle
    unfold validate_quantity validate_price
    rw [hq]
    simp only [hle, Bool.false_eq_true, if_false]
    by_cases hlt : PyFloat.lt q (.finite (1 / 1000)) = true
    · rw [if_pos hlt]
      exact ⟨by trivial, by trivial, fun _ => hlt, fun _ => List.cons_ne_nil _ _⟩
    · rw [if_neg hlt]
      exact ⟨by trivial, by trivial, fun hne => absurd rfl hne, fun hl => absurd hl hlt⟩

/-- Witness for C3: "abc" does not parse, "0" parses to a non-positive
value, "0.0005" is accepted with the advisory warning, "50000" is accepted
silently. -/
theorem quantity_price_validation_witness :
    ((validate_quantity "abc").1 =
        .error "Invalid quantity: abc. Must be a positive number" ∧
      validate_price "abc" = .error "Invalid price: abc. Must be a positive number") ∧
    ((validate_quantity "0").1 =
        .error "Invalid quantity: 0. Must be a positive number" ∧
      validate_price "0" = .error "Invalid price: 0. Must be a positive number") ∧
    ((validate_quantity "0.0005").1 = .ok (.finite (1 / 2000)) ∧
      (validate_quantity "0.0005").2 ≠ []) ∧
    ((validate_quantity "50000").1 = .ok (.finite 50000) ∧
      (validate_quantity "50000").2 = []) := by
  refine ⟨?_, ?_, ?_, ?_⟩
  · exact (quantity_price_validation "abc").1 (by decide)
  · exact (quantity_price_validation "0").2.1 (.finite 0) (by decide) (by decide)
  · have h := (quantity_price_validation "0.0005").2.2 (.finite (1 / 2000))
      parse_00005 le_00005_zero
    exact ⟨h.1, h.2.2.mpr lt_00005_threshold⟩
  · have h := (quantity_price_validation "50000").2.2 (.finite 50000)
      parse_50000 le_50000_zero
    refine ⟨h.1, ?_⟩
    by_contra hne
    have hl := h.2.2.mp hne
    rw [lt_50000_threshold] at hl
    exact Bool.false_ne_true hl

theorem vq_none {s : String} (hp : pyFloatOfString s = none) :
    validate_quantity s =
      (.error ("Invalid quantity: " ++ s ++ ". Must be a positive number"), []) := by
  unfold validate_quantity
  rw [hp]

theorem vq_nonpos {s : String} {q : PyFloat} (hp : pyFloatOfString s = some q)
    (hle : PyFloat.le q (.finite 0) = true) :
    validate_quantity s =
      (.error ("Invalid quantity: " ++ s ++ ". Must be a positive number"), []) := by
  simp [validate_quantity, hp, hle]

theorem vq_pos_warn {s : String} {q : PyFloat} (hp : pyFloatOfString s = some q)
    (hle : PyFloat.le q (.finite 0) = false)
    (hlt : PyFloat.lt q (.finite (1 / 1000)) = true) :
    validate_quantity s =
      (.ok q, ["Warning: Quantity " ++ pyStr q ++ " might be too small for some symbols"]) := by
  unfold validate_quantity
  rw [hp]
  simp only [hle, Bool.false_eq_true, if_false]
  rw [if_pos hlt]

theorem vq_pos_nowarn {s : String} {q : PyFloat} (hp : pyFloatOfString s = some q)
    (hle : PyFloat.le q (.finite 0) = false)
    (hlt : PyFloat.lt q (.finite (1 / 1000)) = false) :
    validate_quantity s = (.ok q, []) := by
  unfold validate_quantity
  rw [hp]
  simp only [hle, Bool.false_eq_true, if_false]
  rw [if_neg (by rw [hlt]; exact Bool.false_ne_true)]

theorem vp_none {s : String} (hp : pyFloatOfString s = none) :
    validate_price s = .error ("Invalid price: " ++ s ++ ". Must be a positive number") := by
  unfold validate_price
  rw [hp]

theorem vp_nonpos {s : String} {q : PyFloat} (hp : pyFloatOfString s = some q)
    (hle : PyFloat.le q (.finite 0) = true) :
    validate_price s = .error ("Invalid price: " ++ s ++ ". Must be a positive number") := by
  simp [validate_price, hp, hle]

theorem vp_pos {s : String} {q : PyFloat} (hp : pyFloatOfString s = some q)
    (hle : PyFloat.le q (.finite 0) = false) :
    validate_price s = .ok q := by
  simp [validate_price, hp, hle]

/-- Does p occur at the start of l. -/
def isPreL : List Char → List Char → Bool
  | [], _ => true
  | _ :: _, [] => false
  | p :: ps, c :: cs => p = c && isPreL ps cs

/-- Does p occur as a contiguous substring of l. -/
def subOccurs (p l : List Char) : Bool :=
  match l with
  | [] => isPreL p []
  | c :: t => isPreL p (c :: t) || subOccurs p t

/-- C8 counterexample: validate_quantity prints a line (performs I/O) on
the accepted input 0.0005, and validate_symbol's failure message shows the
normalized value XX, not the raw value " xx " as supplied by the user
(which occurs nowhere in the message). -/
theorem validation_io_counterexample :
    (validate_quantity "0.0005").2 ≠ [] ∧
    validate_symbol " xx " =
      .error "Invalid symbol: XX. Must be like 'BTCUSDT', 'ETHUSDT'" ∧
    subOccurs " xx ".data
      ("Invalid symbol: XX. Must be like 'BTCUSDT', 'ETHUSDT'").data = false := by
  refine ⟨?_, rfl, by decide⟩
  rw [vq_pos_warn parse_00005 le_00005_zero lt_00005_threshold]
  exact List.cons_ne_nil _ _

/-- C8 as amended: every validation failure message names the offending
field, the checked value (the uppercased-and-trimmed value for symbol,
side and order type, the raw string for quantity and price) and the
expected format; the validators print nothing except validate_quantity's
advisory warning, emitted exactly when the parsed quantity is accepted and
lies below 0.001. -/
theorem validation_message_policy (s : String) :
    (∀ e, validate_symbol s = .error e →
      e = "Invalid symbol: " ++ pyStrip (pyUpper s) ++ ". Must be like 'BTCUSDT', 'ETHUSDT'") ∧
    (∀ e, validate_side s = .error e →
      e = "Invalid side: " ++ pyStrip (pyUpper s) ++ ". Must be 'BUY' or 'SELL'") ∧
    (∀ e, validate_order_type s = .error e →
      e = "Invalid order type: " ++ pyStrip (pyUpper s) ++ ". Must be 'MARKET' or 'LIMIT'") ∧
    (∀ e, (validate_quantity s).1 = .error e →
      e = "Invalid quantity: " ++ s ++ ". Must be a positive number" ∧
      (validate_quantity s).2 = []) ∧
    (∀ e, validate_price s = .error e →
      e = "Invalid price: " ++ s ++ ". Must be a positive number") ∧
    ((validate_quantity s).2 = [] ∨
      ∃ q, pyFloatOfString s = some q ∧ PyFloat.lt q (.finite (1 / 1000)) = true ∧
        (validate_quantity s).1 = .ok q ∧
        (validate_quantity s).2 =
          ["Warning: Quantity " ++ pyStr q ++ " might be too small for some symbols"]) := by
  refine ⟨?_, ?_, ?_, ?_, ?_, ?_⟩
  · intro e h
    simp only [validate_symbol] at h
    split at h
    · cases h
    · cases h
      rfl
  · intro e h
    simp only [validate_side] at h
    split at h
    · cases h
    · cases h
      rfl
  · intro e h
    simp only [validate_order_type] at h
    split at h
    · cases h
    · cases h
      rfl
  · intro e h
    cases hp : pyFloatOfString s with
    | none =>
      rw [vq_none hp] at h ⊢
      cases h
      exact ⟨rfl, rfl⟩
    | some q =>
      by_cases hle : PyFloat.le q (.finite 0) = true
      · rw [vq_nonpos hp hle] at h ⊢
        cases h
        exact ⟨rfl, rfl⟩
      · have hle2 : PyFloat.le q (.finite 0) = false := Bool.eq_false_iff.mpr hle
        by_cases hlt : PyFloat.lt q (.finite (1 / 1000)) = true
        · rw [vq_pos_warn hp hle2 hlt] at h
          cases h
        · have hlt2 := Bool.eq_false_iff.mpr hlt
          rw [vq_pos_nowarn hp hle2 hlt2] at h
          cases h
  · intro e h
    cases hp : pyFloatOfString s with
    | none =>
      rw [vp_none hp] at h
      cases h
      rfl
    | some q =>
      by_cases hle : PyFloat.le q (.finite 0) = true
      · rw [vp_nonpos hp hle] at h
        cases h
        rfl
      · rw [vp_pos hp (Bool.eq_false_iff.mpr hle)] at h
        cases h
  · cases hp : pyFloatOfString s with
    | none =>
      left
      rw [vq_none hp]
    | some q =>
      by_cases hle : PyFloat.le q (.finite 0) = true
      · left
        rw [vq_nonpos hp hle]
      · have hle2 : PyFloat.le q (.finite 0) = false := Bool.eq_false_iff.mpr hle
        by_cases hlt : PyFloat.lt q (.finite (1 / 1000)) = true
        · right
          exact ⟨q, rfl, hlt, by rw [vq_pos_warn hp hle2 hlt], by rw [vq_pos_warn hp hle2 hlt]⟩
        · left
          rw [vq_pos_nowarn hp hle2 (Bool.eq_false_iff.mpr hlt)]

/-- Witness for the amended C8: the failing side "hold" yields the message
naming the normalized value HOLD, and the failing quantity "abc" yields
the message with the raw string and prints nothing. -/
theorem validation_message_policy_witness :
    "Invalid side: HOLD. Must be 'BUY' or 'SELL'" =
      "Invalid side: " ++ pyStrip (pyUpper "hold") ++ ". Must be 'BUY' or 'SELL'" ∧
    ("Invalid quantity: abc. Must be a positive number" =
        "Invalid quantity: " ++ "abc" ++ ". Must be a positive number" ∧
      (validate_quantity "abc").2 = []) :=
  ⟨(validation_message_policy "hold").2.1 _ rfl,
   (validation_message_policy "abc").2.2.2.1 _ rfl⟩

/-- The keyword arguments place_market_order hands futures_create_order. -/
def marketReq (sym sd : String) (qty : PyFloat) : CreateOrderReq :=
  { symbol := sym, side := pyUpper sd, type := "MARKET", quantity := qty,
    price := none, timeInForce := none }

/-- The keyword arguments place_limit_order hands futures_create_order. -/
def limitReq (sym sd : String) (qty pr : PyFloat) : CreateOrderReq :=
  { symbol := sym, side := pyUpper sd, type := "LIMIT", quantity := qty,
    price := some pr, timeInForce := some "GTC" }

/-- C5: each order placement issues exactly one create-order call (so
nothing is retried); a structured exchange rejection becomes the one
failure message carrying the exchange's code and message, any other
failure the generic message, and a successful response is returned as
is. -/
theorem gateway_single_call_wrapping (fco : CreateOrderReq → ApiOutcome)
    (sym sd : String) (qty pr : PyFloat) :
    (place_market_order fco sym sd qty).2 = [marketReq sym sd qty] ∧
    (place_limit_order fco sym sd qty pr).2 = [limitReq sym sd qty pr] ∧
    (∀ r, fco (marketReq sym sd qty) = .ok r →
      (place_market_order fco sym sd qty).1 = .ok r) ∧
    (∀ c m, fco (marketReq sym sd qty) = .apiErr c m →
      (place_market_order fco sym sd qty).1 =
        .error ("Binance API Error: " ++ m ++ " (Error code: " ++ toString c ++ ")")) ∧
    (∀ m, fco (marketReq sym sd qty) = .otherErr m →
      (place_market_order fco sym sd qty).1 =
        .error ("Unexpected error placing market order: " ++ m)) ∧
    (∀ r, fco (limitReq sym sd qty pr) = .ok r →
      (place_limit_order fco sym sd qty pr).1 = .ok r) ∧
    (∀ c m, fco (limitReq sym sd qty pr) = .apiErr c m →
      (place_limit_order fco sym sd qty pr).1 =
        .error ("Binance API Error: " ++ m ++ " (Error code: " ++ toString c ++ ")")) ∧
    (∀ m, fco (limitReq sym sd qty pr) = .otherErr m →
      (place_limit_order fco sym sd qty pr).1 =
        .error ("Unexpected error placing limit order: " ++ m)) := by
  refine ⟨?_, ?_, ?_, ?_, ?_, ?_, ?_, ?_⟩
  · simp only [place_market_order, marketReq]
    generalize fco { symbol := sym, side := pyUpper sd, type := "MARKET", quantity := qty, price := none, timeInForce := none } = x
    cases x <;> rfl
  · simp only [place_limit_order, limitReq]
    generalize fco { symbol := sym, side := pyUpper sd, type := "LIMIT", quantity := qty, price := some pr, timeInForce := some "GTC" } = x
    cases x <;> rfl
  · intro r h
    simp only [marketReq] at h
    simp only [place_market_order]
    rw [h]
  · intro c m h
    simp only [marketReq] at h
    simp only [place_market_order]
    rw [h]
  · intro m h
    simp only [marketReq] at h
    simp only [place_market_order]
    rw [h]
  · intro r h
    simp only [limitReq] at h
    simp only [place_limit_order]
    rw [h]
  · intro c m h
    simp only [limitReq] at h
    simp only [place_limit_order]
    rw [h]
  · intro m h
    simp only [limitReq] at h
    simp only [place_limit_order]
    rw [h]

/-- An exchange that rejects every order with a structured error, for the
witness below. -/
def fcoApiErr : CreateOrderReq → ApiOutcome :=
  fun _ => .apiErr (-2019) "Margin is insufficient"

/-- Witness for C5: against fcoApiErr exactly one call is made and the
wrapped message carries the code -2019 and the exchange's text. -/
theorem gateway_single_call_wrapping_witness :
    (place_market_order fcoApiErr "BTCUSDT" "BUY" (.finite 1)).2 =
      [marketReq "BTCUSDT" "BUY" (.finite 1)] ∧
    (place_market_order fcoApiErr "BTCUSDT" "BUY" (.finite 1)).1 =
      .error "Binance API Error: Margin is insufficient (Error code: -2019)" :=
  ⟨(gateway_single_call_wrapping fcoApiErr "BTCUSDT" "BUY" (.finite 1) (.finite 1)).1,
   (gateway_single_call_wrapping fcoApiErr "BTCUSDT" "BUY"
      (.finite 1) (.finite 1)).2.2.2.1 (-2019) "Margin is insufficient" rfl⟩

/-- C7: get_order_status returns the record on success; on any failure it
logs the error and returns None; in both cases the result is a normal
return, never a propagated exception. -/
theorem order_status_never_raises
    (fgo : String → Int → Except String OrderResult) (sym : String) (oid : Int) :
    (∀ o, fgo sym oid = .ok o →
      (get_order_status fgo sym oid).1 = .ret (some o)) ∧
    (∀ e, fgo sym oid = .error e →
      (get_order_status fgo sym oid).1 = .ret none ∧
      ("Failed to check order status: " ++ e) ∈ (get_order_status fgo sym oid).2) ∧
    (∃ v, (get_order_status fgo sym oid).1 = .ret v) := by
  refine ⟨?_, ?_, ?_⟩
  · intro o h
    simp only [get_order_status]
    rw [h]
  · intro e h
    simp only [get_order_status]
    rw [h]
    exact ⟨rfl, by simp⟩
  · cases h : fgo sym oid with
    | ok o => exact ⟨some o, by simp only [get_order_status]; rw [h]⟩
    | error e => exact ⟨none, by simp only [get_order_status]; rw [h]⟩

/-- A status oracle failing with a connection error, for the witness. -/
def fgoErr : String → Int → Except String OrderResult :=
  fun _ _ => .error "Connection aborted"

/-- Witness for C7: a failing status query yields None plus the log line,
not an exception. -/
theorem order_status_never_raises_witness :
    (get_order_status fgoErr "BTCUSDT" 12345).1 = .ret none ∧
    "Failed to check order status: Connection aborted" ∈
      (get_order_status fgoErr "BTCUSDT" 12345).2 :=
  (order_status_never_raises fgoErr "BTCUSDT" 12345).2.1 "Connection aborted" rfl

theorem mainValidate_ok_shape {a : Args} {v : ValidatedOrder}
    (h : mainValidate a = .ok v) :
    validate_order_type a.order_type = .ok v.order_type ∧
    ((v.order_type = "MARKET" ∧ v.price = none) ∨
      (v.order_type = "LIMIT" ∧ ∃ p, v.price = some p)) := by
  unfold mainValidate at h
  split at h
  next => cases h
  next symbol hsym =>
  split at h
  next => cases h
  next side hside =>
  split at h
  next => cases h
  next order_type htype =>
  split at h
  next => cases h
  next quantity hqty =>
  split at h
  next hlim =>
    split at h
    next htr =>
      split at h
      next p hp =>
        split at h
        next => cases h
        next price hpr =>
          cases h
          exact ⟨htype, Or.inr ⟨hlim, price, rfl⟩⟩
      next hp => cases h
    next hntr => cases h
  next hnlim =>
    cases h
    rcases (validate_order_type_ok_iff.mp htype).2 with hm | hl
    · exact ⟨htype, Or.inl ⟨hm, rfl⟩⟩
    · exact absurd hl hnlim

theorem mainValidate_missing_price {a : Args} {symbol side : String} {q : PyFloat}
    (hs : validate_symbol a.symbol = .ok symbol)
    (hd : validate_side a.side = .ok side)
    (ht : validate_order_type a.order_type = .ok "LIMIT")
    (hq : (validate_quantity a.quantity).1 = .ok q)
    (hp : pyTruthyOptFloat a.price = false) :
    mainValidate a = .error missing_price_msg := by
  unfold mainValidate
  rw [hs, hd, ht, hq]
  simp [hp]

theorem mainValidate_limit_checks_price {a : Args} {symbol side : String}
    {q : PyFloat} {p : PyFloat}
    (hs : validate_symbol a.symbol = .ok symbol)
    (hd : validate_side a.side = .ok side)
    (ht : validate_order_type a.order_type = .ok "LIMIT")
    (hq : (validate_quantity a.quantity).1 = .ok q)
    (hpp : a.price = some p)
    (htr : pyTruthyOptFloat a.price = true) :
    mainValidate a = (validate_price_of_float p).map
      (fun price => { symbol := symbol, side := side, order_type := "LIMIT",
                      quantity := q, price := some price }) := by
  unfold mainValidate
  rw [hs, hd, ht, hq]
  simp only [hpp] at htr ⊢
  simp only [htr, if_true, if_pos rfl]
  cases validate_price_of_float p <;> rfl

theorem cliMain_validation_error {a : Args} {w : World} {e : String}
    (h : mainValidate a = .error e) : cliMain a w = (1, []) := by
  unfold cliMain
  rw [h]

theorem cliMain_no_creds {a : Args} {w : World} {v : ValidatedOrder}
    (h : mainValidate a = .ok v) (hc : credsOk w = false) :
    cliMain a w = (1, []) := by
  unfold cliMain
  rw [h]
  simp [hc]

theorem cliMain_interrupt {a : Args} {w : World} {v : ValidatedOrder}
    (h : mainValidate a = .ok v) (hc : credsOk w = true)
    (hi : w.confirm = .interrupt) : cliMain a w = (0, []) := by
  unfold cliMain
  rw [h]
  simp [hc, hi]

theorem cliMain_eof {a : Args} {w : World} {v : ValidatedOrder}
    (h : mainValidate a = .ok v) (hc : credsOk w = true)
    (hi : w.confirm = .eofError) : cliMain a w = (1, []) := by
  unfold cliMain
  rw [h]
  simp [hc, hi]

theorem cliMain_decline {a : Args} {w : World} {v : ValidatedOrder} {s : String}
    (h : mainValidate a = .ok v) (hc : credsOk w = true)
    (ha : w.confirm = .answer s) (hd : print_order_summary s = false) :
    cliMain a w = (0, []) := by
  unfold cliMain
  rw [h]
  simp [hc, ha, hd]

theorem cliMain_connect_fail {a : Args} {w : World} {v : ValidatedOrder} {s e : String}
    (h : mainValidate a = .ok v) (hc : credsOk w = true)
    (ha : w.confirm = .answer s) (hy : print_order_summary s = true)
    (hcon : w.connect = .error e) : cliMain a w = (1, []) := by
  unfold cliMain
  rw [h]
  simp [hc, ha, hy, hcon]

theorem cliMain_market_ok {a : Args} {w : World} {v : ValidatedOrder} {s : String}
    {r : OrderResult}
    (h : mainValidate a = .ok v) (hc : credsOk w = true)
    (ha : w.confirm = .answer s) (hy : print_order_summary s = true)
    (hcon : w.connect = .ok ()) (hm : v.order_type = "MARKET")
    (hf : w.futures_create_order (marketReq v.symbol v.side v.quantity) = .ok r) :
    cliMain a w = (0, [marketReq v.symbol v.side v.quantity]) := by
  have hpm : place_market_order w.futures_create_order v.symbol v.side v.quantity =
      (.ok r, [marketReq v.symbol v.side v.quantity]) := by
    simp only [marketReq] at hf
    simp only [place_market_order, marketReq]
    rw [hf]
  unfold cliMain
  rw [h]
  simp [hc, ha, hy, hcon, hm, hpm]

theorem cliMain_market_err {a : Args} {w : World} {v : ValidatedOrder} {s : String}
    (h : mainValidate a = .ok v) (hc : credsOk w = true)
    (ha : w.confirm = .answer s) (hy : print_order_summary s = true)
    (hcon : w.connect = .ok ()) (hm : v.order_type = "MARKET")
    (hf : ∀ r, w.futures_create_order (marketReq v.symbol v.side v.quantity) ≠ .ok r) :
    cliMain a w = (1, [marketReq v.symbol v.side v.quantity]) := by
  cases hx : w.futures_create_order (marketReq v.symbol v.side v.quantity) with
  | ok r => exact absurd hx (hf r)
  | apiErr c m =>
    have hpm : place_market_order w.futures_create_order v.symbol v.side v.quantity =
        (.error ("Binance API Error: " ++ m ++ " (Error code: " ++ toString c ++ ")"),
         [marketReq v.symbol v.side v.quantity]) := by
      simp only [marketReq] at hx
      simp only [place_market_order, marketReq]
      rw [hx]
    unfold cliMain
    rw [h]
    simp [hc, ha, hy, hcon, hm, hpm]
  | otherErr m =>
    have hpm : place_market_order w.futures_create_order v.symbol v.side v.quantity =
        (.error ("Unexpected error placing market order: " ++ m),
         [marketReq v.symbol v.side v.quantity]) := by
      simp only [marketReq] at hx
      simp only [place_market_order, marketReq]
      rw [hx]
    unfold cliMain
    rw [h]
    simp [hc, ha, hy, hcon, hm, hpm]

theorem cliMain_limit_ok {a : Args} {w : World} {v : ValidatedOrder} {s : String}
    {p : PyFloat} {r : OrderResult}
    (h : mainValidate a = .ok v) (hc : credsOk w = true)
    (ha : w.confirm = .answer s) (hy : print_order_summary s = true)
    (hcon : w.connect = .ok ()) (hl : v.order_type = "LIMIT") (hp : v.price = some p)
    (hf : w.futures_create_order (limitReq v.symbol v.side v.quantity p) = .ok r) :
    cliMain a w = (0, [limitReq v.symbol v.side v.quantity p]) := by
  have hpl : place_limit_order w.futures_create_order v.symbol v.side v.quantity p =
      (.ok r, [limitReq v.symbol v.side v.quantity p]) := by
    simp only [limitReq] at hf
    simp only [place_limit_order, limitReq]
    rw [hf]
  unfold cliMain
  rw [h]
  simp [hc, ha, hy, hcon, hl, hp, hpl]

theorem cliMain_limit_err {a : Args} {w : World} {v : ValidatedOrder} {s : String}
    {p : PyFloat}
    (h : mainValidate a = .ok v) (hc : credsOk w = true)
    (ha : w.confirm = .answer s) (hy : print_order_summary s = true)
    (hcon : w.connect = .ok ()) (hl : v.order_type = "LIMIT") (hp : v.price = some p)
    (hf : ∀ r, w.futures_create_order (limitReq v.symbol v.side v.quantity p) ≠ .ok r) :
    cliMain a w = (1, [limitReq v.symbol v.side v.quantity p]) := by
  cases hx : w.futures_create_order (limitReq v.symbol v.side v.quantity p) with
  | ok r => exact absurd hx (hf r)
  | apiErr c m =>
    have hpl : place_limit_order w.futures_create_order v.symbol v.side v.quantity p =
        (.error ("Binance API Error: " ++ m ++ " (Error code: " ++ toString c ++ ")"),
         [limitReq v.symbol v.side v.quantity p]) := by
      simp only [limitReq] at hx
      simp only [place_limit_order, limitReq]
      rw [hx]
    unfold cliMain
    rw [h]
    simp [hc, ha, hy, hcon, hl, hp, hpl]
  | otherErr m =>
    have hpl : place_limit_order w.futures_create_order v.symbol v.side v.quantity p =
        (.error ("Unexpected error placing limit order: " ++ m),
         [limitReq v.symbol v.side v.quantity p]) := by
      simp only [limitReq] at hx
      simp only [place_limit_order, limitReq]
      rw [hx]
    unfold cliMain
    rw [h]
    simp [hc, ha, hy, hcon, hl, hp, hpl]

/-- The validation step failed. -/
@[reducible] def validationFailed (a : Args) : Prop := ∃ e, mainValidate a = .error e

/-- Validation passed and both credentials are truthy, so the run reaches
the confirmation prompt. -/
@[reducible] def reachedPrompt (a : Args) (w : World) : Prop :=
  (∃ v, mainValidate a = .ok v) ∧ credsOk w = true

/-- The user answered the prompt with a non-affirmative line. -/
@[reducible] def declined (a : Args) (w : World) : Prop :=
  reachedPrompt a w ∧ ∃ s, w.confirm = .answer s ∧ print_order_summary s = false

/-- The user pressed Ctrl-C at the prompt. -/
@[reducible] def interrupted (a : Args) (w : World) : Prop :=
  reachedPrompt a w ∧ w.confirm = ConfirmInput.interrupt

/-- The run submitted exactly one order and the exchange accepted it. -/
@[reducible] def orderPlaced (a : Args) (w : World) : Prop :=
  ∃ req r, (cliMain a w).2 = [req] ∧ w.futures_create_order req = ApiOutcome.ok r

/-- Exhaustive description of one run: exactly one of the seven linear
outcomes of cli.py's main happens, each with its exit code and calls. -/
theorem cliMain_shape (a : Args) (w : World) :
    (∃ e, mainValidate a = .error e ∧ cliMain a w = (1, [])) ∨
    ((∃ v, mainValidate a = .ok v) ∧ credsOk w = false ∧ cliMain a w = (1, [])) ∨
    (reachedPrompt a w ∧ w.confirm = .interrupt ∧ cliMain a w = (0, [])) ∨
    (reachedPrompt a w ∧ w.confirm = .eofError ∧ cliMain a w = (1, [])) ∨
    (reachedPrompt a w ∧ (∃ s, w.confirm = .answer s ∧ print_order_summary s = false) ∧
      cliMain a w = (0, [])) ∨
    (reachedPrompt a w ∧ (∃ s, w.confirm = .answer s ∧ print_order_summary s = true) ∧
      (∃ e, w.connect = .error e) ∧ cliMain a w = (1, [])) ∨
    (reachedPrompt a w ∧ (∃ s, w.confirm = .answer s ∧ print_order_summary s = true) ∧
      w.connect = .ok () ∧
      ∃ v req, mainValidate a = .ok v ∧
        ((v.order_type = "MARKET" ∧ req = marketReq v.symbol v.side v.quantity) ∨
          (v.order_type = "LIMIT" ∧
            ∃ p, v.price = some p ∧ req = limitReq v.symbol v.side v.quantity p)) ∧
        (((∃ r, w.futures_create_order req = .ok r) ∧ cliMain a w = (0, [req])) ∨
          ((∀ r, w.futures_create_order req ≠ .ok r) ∧ cliMain a w = (1, [req])))) := by
  cases hmv : mainValidate a with
  | error e => exact Or.inl ⟨e, rfl, cliMain_validation_error hmv⟩
  | ok v =>
    cases hc : credsOk w with
    | false => exact Or.inr (Or.inl ⟨⟨v, rfl⟩, rfl, cliMain_no_creds hmv hc⟩)
    | true =>
      have hrp : reachedPrompt a w := ⟨⟨v, hmv⟩, hc⟩
      cases hcf : w.confirm with
      | interrupt =>
        exact Or.inr (Or.inr (Or.inl ⟨hrp, rfl, cliMain_interrupt hmv hc hcf⟩))
      | eofError =>
        exact Or.inr (Or.inr (Or.inr (Or.inl ⟨hrp, rfl, cliMain_eof hmv hc hcf⟩)))
      | answer s =>
        cases hd : print_order_summary s with
        | false =>
          exact Or.inr (Or.inr (Or.inr (Or.inr (Or.inl
            ⟨hrp, ⟨s, rfl, hd⟩, cliMain_decline hmv hc hcf hd⟩))))
        | true =>
          cases hcon : w.connect with
          | error e =>
            exact Or.inr (Or.inr (Or.inr (Or.inr (Or.inr (Or.inl
              ⟨hrp, ⟨s, rfl, hd⟩, ⟨e, rfl⟩, cliMain_connect_fail hmv hc hcf hd hcon⟩)))))
          | ok u =>
            cases u
            refine Or.inr (Or.inr (Or.inr (Or.inr (Or.inr (Or.inr
              ⟨hrp, ⟨s, rfl, hd⟩, rfl, v, ?_⟩)))))
            rcases (mainValidate_ok_shape hmv).2 with ⟨hm, hpn⟩ | ⟨hl, p, hp⟩
            · refine ⟨marketReq v.symbol v.side v.quantity, rfl, Or.inl ⟨hm, rfl⟩, ?_⟩
              cases hx : w.futures_create_order (marketReq v.symbol v.side v.quantity) with
              | ok r =>
                exact Or.inl ⟨⟨r, rfl⟩, cliMain_market_ok hmv hc hcf hd hcon hm hx⟩
              | apiErr c m =>
                refine Or.inr ⟨?_, ?_⟩
                · intro r hr
                  cases hr
                · refine cliMain_market_err hmv hc hcf hd hcon hm ?_
                  intro r hr
                  rw [hx] at hr
                  cases hr
              | otherErr m =>
                refine Or.inr ⟨?_, ?_⟩
                · intro r hr
                  cases hr
                · refine cliMain_market_err hmv hc hcf hd hcon hm ?_
                  intro r hr
                  rw [hx] at hr
                  cases hr
            · refine ⟨limitReq v.symbol v.side v.quantity p, rfl, Or.inr ⟨hl, p, hp, rfl⟩, ?_⟩
              cases hx : w.futures_create_order (limitReq v.symbol v.side v.quantity p) with
              | ok r =>
                exact Or.inl ⟨⟨r, rfl⟩, cliMain_limit_ok hmv hc hcf hd hcon hl hp hx⟩
              | apiErr c m =>
                refine Or.inr ⟨?_, ?_⟩
                · intro r hr
                  cases hr
                · refine cliMain_limit_err hmv hc hcf hd hcon hl hp ?_
                  intro r hr
                  rw [hx] at hr
                  cases hr
              | otherErr m =>
                refine Or.inr ⟨?_, ?_⟩
                · intro r hr
                  cases hr
                · refine cliMain_limit_err hmv hc hcf hd hcon hl hp ?_
                  intro r hr
                  rw [hx] at hr
                  cases hr

/-- C1: the exit code is 0 or 1; it is 0 exactly when the one submitted
order succeeded, the user declined, or the user interrupted (and in the
latter two cases no gateway call was made); any validation failure,
missing credentials, connection failure, or submission failure exits 1. -/
theorem cli_exit_code_policy (a : Args) (w : World) :
    ((cliMain a w).1 = 0 ∨ (cliMain a w).1 = 1) ∧
    ((cliMain a w).1 = 0 ↔ (orderPlaced a w ∨ declined a w ∨ interrupted a w)) ∧
    (declined a w → (cliMain a w).2 = []) ∧
    (interrupted a w → (cliMain a w).2 = []) ∧
    (validationFailed a → cliMain a w = (1, [])) ∧
    (¬ validationFailed a → credsOk w = false → cliMain a w = (1, [])) ∧
    (reachedPrompt a w → (∃ s, w.confirm = .answer s ∧ print_order_summary s = true) →
      (∃ e, w.connect = .error e) → (cliMain a w).1 = 1) ∧
    (∀ req, (cliMain a w).2 = [req] → (∀ r, w.futures_create_order req ≠ .ok r) →
      (cliMain a w).1 = 1) := by
  rcases cliMain_shape a w with
    ⟨e, hmv, hcm⟩ | ⟨⟨v, hmv⟩, hc, hcm⟩ | ⟨hrp, hcf, hcm⟩ | ⟨hrp, hcf, hcm⟩ |
    ⟨hrp, ⟨s, hcf, hd⟩, hcm⟩ | ⟨hrp, ⟨s, hcf, hd⟩, ⟨e, hcon⟩, hcm⟩ |
    ⟨hrp, ⟨s, hcf, hd⟩, hcon, v, req, hmv, hreq, hsub⟩
  · have hnP : ¬ orderPlaced a w := by
      rintro ⟨req, r, h2, -⟩
      rw [hcm] at h2
      cases h2
    have hnRP : ¬ reachedPrompt a w := by
      rintro ⟨⟨v, hv⟩, -⟩
      rw [hmv] at hv
      cases hv
    refine ⟨Or.inr (by rw [hcm]), ⟨fun h0 => ?_, fun hor => ?_⟩,
      fun hdec => (hnRP hdec.1).elim, fun hint => (hnRP hint.1).elim,
      fun _ => hcm, fun _ _ => hcm, fun hrp => (hnRP hrp).elim, ?_⟩
    · rw [hcm] at h0
      exact absurd h0 (by decide)
    · rcases hor with h | h | h
      exacts [(hnP h).elim, (hnRP h.1).elim, (hnRP h.1).elim]
    · intro req h2 hne
      rw [hcm] at h2
      cases h2
  · have hnP : ¬ orderPlaced a w := by
      rintro ⟨req, r, h2, -⟩
      rw [hcm] at h2
      cases h2
    have hnRP : ¬ reachedPrompt a w := by
      rintro ⟨-, hc'⟩
      rw [hc] at hc'
      cases hc'
    refine ⟨Or.inr (by rw [hcm]), ⟨fun h0 => ?_, fun hor => ?_⟩,
      fun hdec => (hnRP hdec.1).elim, fun hint => (hnRP hint.1).elim,
      fun _ => hcm, fun _ _ => hcm, fun hrp => (hnRP hrp).elim, ?_⟩
    · rw [hcm] at h0
      exact absurd h0 (by decide)
    · rcases hor with h | h | h
      exacts [(hnP h).elim, (hnRP h.1).elim, (hnRP h.1).elim]
    · intro req h2 hne
      rw [hcm] at h2
      cases h2
  · refine ⟨Or.inl (by rw [hcm]), ⟨fun _ => Or.inr (Or.inr ⟨hrp, hcf⟩), fun _ => by rw [hcm]⟩,
      fun _ => by rw [hcm], fun _ => by rw [hcm], ?_, ?_, ?_, ?_⟩
    · rintro ⟨e, he⟩
      rcases hrp with ⟨⟨v, hv⟩, -⟩
      rw [hv] at he
      cases he
    · intro _ hc'
      rcases hrp with ⟨-, hc⟩
      rw [hc] at hc'
      cases hc'
    · rintro _ ⟨s, hcf', -⟩ _
      rw [hcf] at hcf'
      cases hcf'
    · intro req h2 hne
      rw [hcm] at h2
      cases h2
  · have hnD : ¬ declined a w := by
      rintro ⟨-, s, hcf', -⟩
      rw [hcf] at hcf'
      cases hcf'
    have hnI : ¬ interrupted a w := by
      rintro ⟨-, hcf'⟩
      rw [hcf] at hcf'
      cases hcf'
    have hnP : ¬ orderPlaced a w := by
      rintro ⟨req, r, h2, -⟩
      rw [hcm] at h2
      cases h2
    refine ⟨Or.inr (by rw [hcm]), ⟨fun h0 => ?_, fun hor => ?_⟩,
      fun hdec => (hnD hdec).elim, fun hint => (hnI hint).elim,
      fun _ => hcm, fun _ _ => hcm, ?_, ?_⟩
    · rw [hcm] at h0
      exact absurd h0 (by decide)
    · rcases hor with h | h | h
      exacts [(hnP h).elim, (hnD h).elim, (hnI h).elim]
    · rintro _ ⟨s', hcf', -⟩ _
      rw [hcf] at hcf'
      cases hcf'
    · intro req h2 hne
      rw [hcm] at h2
      cases h2
  · refine ⟨Or.inl (by rw [hcm]),
      ⟨fun _ => Or.inr (Or.inl ⟨hrp, s, hcf, hd⟩), fun _ => by rw [hcm]⟩,
      fun _ => by rw [hcm], fun _ => by rw [hcm], ?_, ?_, ?_, ?_⟩
    · rintro ⟨e, he⟩
      rcases hrp with ⟨⟨v, hv⟩, -⟩
      rw [hv] at he
      cases he
    · intro _ hc'
      rcases hrp with ⟨-, hc⟩
      rw [hc] at hc'
      cases hc'
    · rintro _ ⟨s', hcf', hd'⟩ _
      rw [hcf] at hcf'
      cases hcf'
      rw [hd] at hd'
      cases hd'
    · intro req h2 hne
      rw [hcm] at h2
      cases h2
  · have hnD : ¬ declined a w := by
      rintro ⟨-, s', hcf', hd'⟩
      rw [hcf] at hcf'
      cases hcf'
      rw [hd] at hd'
      cases hd'
    have hnI : ¬ interrupted a w := by
      rintro ⟨-, hcf'⟩
      rw [hcf] at hcf'
      cases hcf'
    have hnP : ¬ orderPlaced a w := by
      rintro ⟨req, r, h2, -⟩
      rw [hcm] at h2
      cases h2
    refine ⟨Or.inr (by rw [hcm]), ⟨fun h0 => ?_, fun hor => ?_⟩,
      fun hdec => (hnD hdec).elim, fun hint => (hnI hint).elim,
      fun _ => hcm, fun _ _ => hcm, fun _ _ _ => by rw [hcm], ?_⟩
    · rw [hcm] at h0
      exact absurd h0 (by decide)
    · rcases hor with h | h | h
      exacts [(hnP h).elim, (hnD h).elim, (hnI h).elim]
    · intro req h2 hne
      rw [hcm] at h2
      cases h2
  · have hnD : ¬ declined a w := by
      rintro ⟨-, s', hcf', hd'⟩
      rw [hcf] at hcf'
      cases hcf'
      rw [hd] at hd'
      cases hd'
    have hnI : ¬ interrupted a w := by
      rintro ⟨-, hcf'⟩
      rw [hcf] at hcf'
      cases hcf'
    have hnVF : ¬ validationFailed a := by
      rintro ⟨e, he⟩
      rw [hmv] at he
      cases he
    have hnC : credsOk w = false → False := by
      intro hc'
      rcases hrp with ⟨-, hc⟩
      rw [hc] at hc'
      cases hc'
    have hnCon : ¬ (∃ e, w.connect = .error e) := by
      rintro ⟨e, he⟩
      rw [hcon] at he
      cases he
    rcases hsub with ⟨⟨r, hok⟩, hcm⟩ | ⟨herr, hcm⟩
    · refine ⟨Or.inl (by rw [hcm]),
        ⟨fun _ => Or.inl ⟨req, r, by rw [hcm], hok⟩, fun _ => by rw [hcm]⟩,
        fun hdec => (hnD hdec).elim, fun hint => (hnI hint).elim,
        fun hvf => (hnVF hvf).elim, fun _ hc' => (hnC hc').elim,
        fun _ _ hce => (hnCon hce).elim, ?_⟩
      intro req' h2 hne
      rw [hcm] at h2
      cases h2
      exact absurd hok (hne r)
    · have hnP : ¬ orderPlaced a w := by
        rintro ⟨req', r, h2, hok⟩
        rw [hcm] at h2
        cases h2
        exact absurd hok (herr r)
      refine ⟨Or.inr (by rw [hcm]), ⟨fun h0 => ?_, fun hor => ?_⟩,
        fun hdec => (hnD hdec).elim, fun hint => (hnI hint).elim,
        fun hvf => (hnVF hvf).elim, fun _ hc' => (hnC hc').elim,
        fun _ _ hce => (hnCon hce).elim, fun req' _ _ => by rw [hcm]⟩
      · rw [hcm] at h0
        simp at h0
      · rcases hor with h | h | h
        exacts [(hnP h).elim, (hnD h).elim, (hnI h).elim]

theorem parse_5 : pyFloatOfString "5" = some (.finite 5) := by
  have h : pyFloatOfString "5" = some (.finite ((digitsToNat ['5'] : ℚ))) := rfl
  rw [h, show digitsToNat ['5'] = 5 from by decide]
  norm_num

theorem le_5_zero : PyFloat.le (.finite 5) (.finite 0) = false := by
  rw [le_finite_eq, decide_eq_false_iff_not]
  norm_num

theorem lt_5_threshold : PyFloat.lt (.finite 5) (.finite (1 / 1000)) = false := by
  rw [lt_finite_eq, decide_eq_false_iff_not]
  norm_num

theorem validate_quantity_5 : (validate_quantity "5").1 = .ok (.finite 5) := by
  rw [vq_pos_nowarn parse_5 le_5_zero lt_5_threshold]

/-- A successful exchange response, for the witnesses. -/
def ord0 : OrderResult :=
  { orderId := 12345, status := "FILLED", executedQty := "5", avgPrice := "50000",
    type := "MARKET" }

/-- An exchange accepting every order, for the witnesses. -/
def fcoOk : CreateOrderReq → ApiOutcome := fun _ => .ok ord0

/-- The environment of a fully successful run, for the witnesses. -/
def w0 : World :=
  { api_key := some "k", api_secret := some "s", confirm := .answer "yes",
    connect := .ok (), futures_create_order := fcoOk }

/-- A valid MARKET command line, for the witnesses. -/
def a0 : Args :=
  { symbol := "BTCUSDT", side := "BUY", order_type := "MARKET", quantity := "5",
    price := none }

/-- What a0 validates to. -/
def v0 : ValidatedOrder :=
  { symbol := "BTCUSDT", side := "BUY", order_type := "MARKET", quantity := .finite 5,
    price := none }

theorem mainValidate_a0 : mainValidate a0 = .ok v0 := by
  unfold mainValidate
  simp only [a0]
  rw [show validate_symbol "BTCUSDT" = Except.ok "BTCUSDT" from rfl,
    show validate_side "BUY" = Except.ok "BUY" from rfl,
    show validate_order_type "MARKET" = Except.ok "MARKET" from rfl,
    validate_quantity_5]
  simp [v0]

theorem a0_not_validationFailed : ¬ validationFailed a0 := by
  rintro ⟨e, he⟩
  rw [mainValidate_a0] at he
  cases he

/-- Witness for C1: declining the confirmation exits 0 (with no call), and
a validation failure exits 1. -/
theorem cli_exit_code_policy_witness :
    (cliMain a0 { w0 with confirm := .answer "no" }).1 = 0 ∧
    cliMain { a0 with symbol := "BTC-USD" } w0 = (1, []) := by
  constructor
  · refine ((cli_exit_code_policy a0 { w0 with confirm := .answer "no" }).2.1).mpr
      (Or.inr (Or.inl ?_))
    exact ⟨⟨⟨v0, mainValidate_a0⟩, rfl⟩, "no", rfl, rfl⟩
  · refine (cli_exit_code_policy { a0 with symbol := "BTC-USD" } w0).2.2.2.2.1 ?_
    exact ⟨"Invalid symbol: BTC-USD. Must be like 'BTCUSDT', 'ETHUSDT'", rfl⟩

theorem print_order_summary_iff (s : String) :
    print_order_summary s = true ↔ pyLower s = "yes" := by
  simp [print_order_summary]

/-- C10: the confirmation prompt treats exactly the answers whose
lowercasing is the token yes as affirmative; any other answer declines:
the process exits 0 and no order is submitted; and an order is only ever
submitted after an affirmative answer. -/
theorem confirmation_token_policy (a : Args) (w : World) (s : String) :
    (print_order_summary s = true ↔ pyLower s = "yes") ∧
    (w.confirm = .answer s → pyLower s ≠ "yes" → ¬ validationFailed a →
      credsOk w = true → cliMain a w = (0, [])) ∧
    ((cliMain a w).2 ≠ [] → ∃ s', w.confirm = .answer s' ∧ pyLower s' = "yes") := by
  refine ⟨print_order_summary_iff s, ?_, ?_⟩
  · intro ha hne hnv hc
    cases hmv : mainValidate a with
    | error e => exact absurd ⟨e, hmv⟩ hnv
    | ok v =>
      refine cliMain_decline hmv hc ha ?_
      rw [← Bool.not_eq_true]
      intro hpos
      exact hne ((print_order_summary_iff s).mp hpos)
  · intro hne
    rcases cliMain_shape a w with
      ⟨e, hmv, hcm⟩ | ⟨⟨v, hmv⟩, hc, hcm⟩ | ⟨hrp, hcf, hcm⟩ | ⟨hrp, hcf, hcm⟩ |
      ⟨hrp, ⟨s1, hcf, hd⟩, hcm⟩ | ⟨hrp, ⟨s1, hcf, hd⟩, ⟨e, hcon⟩, hcm⟩ |
      ⟨hrp, ⟨s1, hcf, hd⟩, hcon, v, req, hmv, hreq, hsub⟩
    · rw [hcm] at hne
      exact absurd rfl hne
    · rw [hcm] at hne
      exact absurd rfl hne
    · rw [hcm] at hne
      exact absurd rfl hne
    · rw [hcm] at hne
      exact absurd rfl hne
    · rw [hcm] at hne
      exact absurd rfl hne
    · rw [hcm] at hne
      exact absurd rfl hne
    · exact ⟨s1, hcf, (print_order_summary_iff s1).mp hd⟩

/-- Witness for C10: the answers y, YES with a trailing blank, and the
empty line all decline (exit 0, no call), while YES in capitals is
affirmative. -/
theorem confirmation_token_policy_witness :
    cliMain a0 { w0 with confirm := .answer "y" } = (0, []) ∧
    cliMain a0 { w0 with confirm := .answer "YES " } = (0, []) ∧
    cliMain a0 { w0 with confirm := .answer "" } = (0, []) ∧
    print_order_summary "YES" = true := by
  refine ⟨?_, ?_, ?_, ?_⟩
  · exact (confirmation_token_policy a0 _ "y").2.1 rfl (by decide)
      a0_not_validationFailed rfl
  · exact (confirmation_token_policy a0 _ "YES ").2.1 rfl (by decide)
      a0_not_validationFailed rfl
  · exact (confirmation_token_policy a0 _ "").2.1 rfl (by decide)
      a0_not_validationFailed rfl
  · exact (confirmation_token_policy a0 w0 "YES").1.mpr rfl

theorem pm_trace (fco : CreateOrderReq → ApiOutcome) (sym sd : String) (qty : PyFloat) :
    (place_market_order fco sym sd qty).2 = [marketReq sym sd qty] := by
  simp only [place_market_order, marketReq]
  generalize fco { symbol := sym, side := pyUpper sd, type := "MARKET", quantity := qty, price := none, timeInForce := none } = x
  cases x <;> rfl

theorem pl_trace (fco : CreateOrderReq → ApiOutcome) (sym sd : String) (qty pr : PyFloat) :
    (place_limit_order fco sym sd qty pr).2 = [limitReq sym sd qty pr] := by
  simp only [place_limit_order, limitReq]
  generalize fco { symbol := sym, side := pyUpper sd, type := "LIMIT", quantity := qty, price := some pr, timeInForce := some "GTC" } = x
  cases x <;> rfl

/-- C6: a market request carries no price (and no time-in-force), a limit
request carries the price together with time-in-force GTC; every request a
run submits has a price exactly when its type is LIMIT; and when the
command line's order type validates to MARKET, every submitted request has
no price, whatever price was supplied. -/
theorem price_iff_limit (fco : CreateOrderReq → ApiOutcome) (sym sd : String)
    (qty pr : PyFloat) (a : Args) (w : World) :
    (∀ req, req ∈ (place_market_order fco sym sd qty).2 →
      req.price = none ∧ req.type = "MARKET" ∧ req.timeInForce = none) ∧
    (∀ req, req ∈ (place_limit_order fco sym sd qty pr).2 →
      req.price = some pr ∧ req.type = "LIMIT" ∧ req.timeInForce = some "GTC") ∧
    (∀ req, req ∈ (cliMain a w).2 → (req.price.isSome = true ↔ req.type = "LIMIT")) ∧
    (validate_order_type a.order_type = .ok "MARKET" →
      ∀ req, req ∈ (cliMain a w).2 → req.price = none) := by
  refine ⟨?_, ?_, ?_, ?_⟩
  · intro req hreq
    rw [pm_trace] at hreq
    rw [List.mem_singleton.mp hreq]
    exact ⟨rfl, rfl, rfl⟩
  · intro req hreq
    rw [pl_trace] at hreq
    rw [List.mem_singleton.mp hreq]
    exact ⟨rfl, rfl, rfl⟩
  · intro req hreq
    rcases cliMain_shape a w with
      ⟨e, hmv, hcm⟩ | ⟨⟨v, hmv⟩, hc, hcm⟩ | ⟨hrp, hcf, hcm⟩ | ⟨hrp, hcf, hcm⟩ |
      ⟨hrp, ⟨s1, hcf, hd⟩, hcm⟩ | ⟨hrp, ⟨s1, hcf, hd⟩, ⟨e, hcon⟩, hcm⟩ |
      ⟨hrp, ⟨s1, hcf, hd⟩, hcon, v, req1, hmv, hreqd, hsub⟩
    · rw [hcm] at hreq
      simp at hreq
    · rw [hcm] at hreq
      simp at hreq
    · rw [hcm] at hreq
      simp at hreq
    · rw [hcm] at hreq
      simp at hreq
    · rw [hcm] at hreq
      simp at hreq
    · rw [hcm] at hreq
      simp at hreq
    · have hreq1 : req = req1 := by
        rcases hsub with ⟨-, hcm⟩ | ⟨-, hcm⟩ <;>
          (rw [hcm] at hreq; exact List.mem_singleton.mp hreq)
      rw [hreq1]
      rcases hreqd with ⟨hm, rfl⟩ | ⟨hl, p, hp, rfl⟩
      · simp [marketReq]
      · simp [limitReq]
  · intro hvt req hreq
    rcases cliMain_shape a w with
      ⟨e, hmv, hcm⟩ | ⟨⟨v, hmv⟩, hc, hcm⟩ | ⟨hrp, hcf, hcm⟩ | ⟨hrp, hcf, hcm⟩ |
      ⟨hrp, ⟨s1, hcf, hd⟩, hcm⟩ | ⟨hrp, ⟨s1, hcf, hd⟩, ⟨e, hcon⟩, hcm⟩ |
      ⟨hrp, ⟨s1, hcf, hd⟩, hcon, v, req1, hmv, hreqd, hsub⟩
    · rw [hcm] at hreq
      simp at hreq
    · rw [hcm] at hreq
      simp at hreq
    · rw [hcm] at hreq
      simp at hreq
    · rw [hcm] at hreq
      simp at hreq
    · rw [hcm] at hreq
      simp at hreq
    · rw [hcm] at hreq
      simp at hreq
    · have hreq1 : req = req1 := by
        rcases hsub with ⟨-, hcm⟩ | ⟨-, hcm⟩ <;>
          (rw [hcm] at hreq; exact List.mem_singleton.mp hreq)
      rw [hreq1]
      have hvt2 := (mainValidate_ok_shape hmv).1
      rw [hvt] at hvt2
      injection hvt2 with hvm
      rcases hreqd with ⟨hm, rfl⟩ | ⟨hl, p, hp, rfl⟩
      · simp [marketReq]
      · exact absurd (hvm.trans hl) (by decide)

/-- Witness for C6: on the successful exchange, the one limit request
carries the price and GTC, and the one market request carries no price. -/
theorem price_iff_limit_witness :
    (limitReq "BTCUSDT" "BUY" (.finite 1) (.finite 2500)).price = some (.finite 2500) ∧
    (limitReq "BTCUSDT" "BUY" (.finite 1) (.finite 2500)).timeInForce = some "GTC" ∧
    (marketReq "BTCUSDT" "BUY" (.finite 1)).price = none := by
  have hl := (price_iff_limit fcoOk "BTCUSDT" "BUY" (.finite 1) (.finite 2500) a0 w0).2.1
    (limitReq "BTCUSDT" "BUY" (.finite 1) (.finite 2500)) (List.Mem.head _)
  have hm := (price_iff_limit fcoOk "BTCUSDT" "BUY" (.finite 1) (.finite 2500) a0 w0).1
    (marketReq "BTCUSDT" "BUY" (.finite 1)) (List.Mem.head _)
  exact ⟨hl.1, hl.2.2, hm.1⟩

theorem invalid_price_msg_ne (s : String) :
    ("Invalid price: " ++ s ++ ". Must be a positive number") ≠ missing_price_msg := by
  intro h
  have h2 := congrArg String.data h
  simp only [String.data_append] at h2
  rw [show missing_price_msg.data =
    ' ' :: "Price is required for LIMIT orders!".data from rfl] at h2
  simp only [List.cons_append, List.cons.injEq] at h2
  exact absurd h2.1 (by decide)

/-- A LIMIT command line whose supplied price is the float 0.0. -/
def aZeroPrice : Args :=
  { symbol := "BTCUSDT", side := "BUY", order_type := "LIMIT", quantity := "5", price := some (.finite 0) }

/-- C2 counterexample: with orderType LIMIT and the price 0.0 supplied on
the command line, validation raises the dedicated missing-price error —
not the field-format error validate_price gives 0.0 — because main treats
every falsy price (None and 0.0 alike) as absent. -/
theorem limit_price_counterexample :
    mainValidate aZeroPrice = .error " Price is required for LIMIT orders!" ∧
    validate_price_of_float (.finite 0) =
      .error "Invalid price: 0.0. Must be a positive number" ∧
    " Price is required for LIMIT orders!" ≠
      "Invalid price: 0.0. Must be a positive number" := by
  refine ⟨?_, rfl, by decide⟩
  exact mainValidate_missing_price rfl rfl rfl validate_quantity_5 rfl

/-- C2 as amended: with orderType LIMIT, a missing or falsy (zero) price
raises the dedicated missing-price error — distinct from every
validate_price message — and the process exits 1 with zero gateway calls;
a truthy supplied price is checked by validate_price on its str form,
which fails exactly on values ≤ 0; and validate_price on a raw string
fails exactly when it is non-numeric or its value is ≤ 0 (the latter is
part of C3's theorem and restated here only through validate_price's
error form). -/
theorem limit_price_required (a : Args) (w : World) :
    (∀ symbol side q, validate_symbol a.symbol = .ok symbol →
      validate_side a.side = .ok side →
      validate_order_type a.order_type = .ok "LIMIT" →
      (validate_quantity a.quantity).1 = .ok q →
      pyTruthyOptFloat a.price = false →
      mainValidate a = .error missing_price_msg ∧ cliMain a w = (1, [])) ∧
    (∀ symbol side q p, validate_symbol a.symbol = .ok symbol →
      validate_side a.side = .ok side →
      validate_order_type a.order_type = .ok "LIMIT" →
      (validate_quantity a.quantity).1 = .ok q →
      a.price = some p → pyTruthyOptFloat a.price = true →
      mainValidate a = (validate_price_of_float p).map
        (fun price => { symbol := symbol, side := side, order_type := "LIMIT",
                        quantity := q, price := some price })) ∧
    (∀ p, PyFloat.le p (.finite 0) = true →
      validate_price_of_float p =
        .error ("Invalid price: " ++ pyStr p ++ ". Must be a positive number")) ∧
    (∀ p, PyFloat.le p (.finite 0) = false → validate_price_of_float p = .ok p) ∧
    (∀ s e, validate_price s = .error e → e ≠ missing_price_msg) ∧
    (∀ p e, validate_price_of_float p = .error e → e ≠ missing_price_msg) := by
  refine ⟨?_, ?_, ?_, ?_, ?_, ?_⟩
  · intro symbol side q hs hd ht hq hp
    have hmv := mainValidate_missing_price hs hd ht hq hp
    exact ⟨hmv, cliMain_validation_error hmv⟩
  · intro symbol side q p hs hd ht hq hpp htr
    exact mainValidate_limit_checks_price hs hd ht hq hpp htr
  · intro p hle
    unfold validate_price_of_float
    rw [if_pos hle]
  · intro p hle
    unfold validate_price_of_float
    rw [if_neg (by rw [hle]; exact Bool.false_ne_true)]
  · intro s e h
    cases hp : pyFloatOfString s with
    | none =>
      rw [vp_none hp] at h
      cases h
      exact invalid_price_msg_ne s
    | some q =>
      by_cases hle : PyFloat.le q (.finite 0) = true
      · rw [vp_nonpos hp hle] at h
        cases h
        exact invalid_price_msg_ne s
      · rw [vp_pos hp (Bool.eq_false_iff.mpr hle)] at h
        cases h
  · intro p e h
    unfold validate_price_of_float at h
    split at h
    · cases h
      exact invalid_price_msg_ne (pyStr p)
    · cases h

/-- A LIMIT command line with no price supplied. -/
def aNoPrice : Args :=
  { symbol := "ETHUSDT", side := "SELL", order_type := "LIMIT", quantity := "5", price := none }

/-- Witness for the amended C2: a LIMIT order for ETHUSDT with no price
raises the missing-price error before any gateway call and exits 1. -/
theorem limit_price_required_witness :
    mainValidate aNoPrice = .error " Price is required for LIMIT orders!" ∧
    cliMain aNoPrice w0 = (1, []) :=
  (limit_price_required aNoPrice w0).1 "ETHUSDT" "SELL" (.finite 5)
    rfl rfl rfl validate_quantity_5 rfl
